import Mathlib

/-!
Verification development for the LoopLib backend BPM-detection pipelines.

Two pipelines are embedded from the source:
* `detect_bpm` — the 3-candidate pipeline of `bpm_detection.py` (autocorrelation
  peak, tempogram peak, beat-track), lines 25–143.
* `uploadBody` / `uploadHandler` — the 4-candidate pipeline inlined in
  `server.py`'s `upload_file` (lines 50–140) together with `add_metronome`
  (lines 142–165).

Modelling conventions:
* Python/numpy floats are idealised as exact rationals `ℚ`.
* numpy arrays and Python lists of numbers are `List ℚ`; a value whose runtime
  type can be an array, a list or a scalar is the sum type `Value`.
* External library calls (librosa, pydub) are oracle fields of the structures
  `BpmLib` and `ServerLib`; fallible calls return `Except String`.
  Repository code is embedded directly, never abstracted into an oracle.
* A non-finite float (the `inf` produced by `60 / 0.0`, and the leading `inf`
  of `librosa.tempo_frequencies`) is modelled as `none : Option ℚ`; any
  comparison `40 <= inf <= 200` is false, matching IEEE semantics, so the
  plausibility mask maps `none` to `false`.
* `print` logging is modelled (for the determinism claim) by threading an
  explicit output log through `detectW`.
-/

namespace LoopLib

/-- Runtime shape of a raw generator output: a numpy array, a plain Python
list, or a plain scalar. -/
inductive Value where
  | ndarray (xs : List ℚ)
  | pylist (xs : List ℚ)
  | scalar (q : ℚ)
deriving DecidableEq

/-- `to_scalar` from `bpm_detection.py` lines 6–11: arrays *and* lists take the
first element (or 0.0 when empty); anything else is cast with `float`. -/
def bpmToScalar : Value → ℚ
  | .ndarray [] => 0
  | .ndarray (x :: _) => x
  | .pylist [] => 0
  | .pylist (x :: _) => x
  | .scalar q => q

/-- `to_scalar` from `server.py` lines 23–27: only `np.ndarray` is special-cased;
a plain Python list falls through to `float(value)`, which raises `TypeError`
(modelled as `.error`). -/
def serverToScalar : Value → Except String ℚ
  | .ndarray [] => .ok 0
  | .ndarray (x :: _) => .ok x
  | .pylist _ => .error "TypeError: float argument must be a string or a real number, not list"
  | .scalar q => .ok q

/-- `np.median` on a list of floats: sort ascending, take the middle element,
or the mean of the two middle elements for even length.  The `0` returned for
the empty list is a placeholder (numpy would give `nan`); every call site in
the embedded code passes a nonempty list. -/
def npMedian (l : List ℚ) : ℚ :=
  let s := List.insertionSort (fun a b => a ≤ b) l
  let n := l.length
  if n = 0 then 0
  else if n % 2 = 1 then s.getD (n / 2) 0
  else (s.getD (n / 2 - 1) 0 + s.getD (n / 2) 0) / 2

/-- Round-half-to-even to an integer, as Python's `round` does. -/
def roundHalfEven (q : ℚ) : ℤ :=
  if Int.fract q < 1/2 then ⌊q⌋
  else if 1/2 < Int.fract q then ⌊q⌋ + 1
  else if ⌊q⌋ % 2 = 0 then ⌊q⌋ else ⌊q⌋ + 1

/-- Python's `round(x, 2)` on the idealised rational value. -/
def round2 (q : ℚ) : ℚ := ((roundHalfEven (100 * q) : ℤ) : ℚ) / 100

/-- `np.mean` of a list (empty list placeholder 0, unreachable at call sites). -/
def listMean (l : List ℚ) : ℚ := l.sum / (l.length : ℚ)

/-- Python's `int()` truncation toward zero on a float. -/
def pyInt (q : ℚ) : ℤ := if 0 ≤ q then ⌊q⌋ else ⌈q⌉

/-- Python slice `y[a:b]` for `0 ≤ a ≤ b`. -/
def pySlice (y : List ℚ) (a b : ℕ) : List ℚ := (y.take b).drop a

/-- The central-windowing step shared by both pipelines
(`bpm_detection.py` lines 48–52, `server.py` lines 72–77):
`y[len(y)//4 : 3*len(y)//4]`. -/
def middleSection (y : List ℚ) : List ℚ :=
  pySlice y (y.length / 4) (3 * y.length / 4)

/-- The resampling block of `bpm_detection.py` lines 40–46: resample only when
the incoming rate differs from the canonical 22050 Hz. -/
def resampleStep (resample : List ℚ → ℕ → ℕ → Except String (List ℚ))
    (y : List ℚ) (sr : ℕ) : Except String (List ℚ × ℕ) :=
  if sr ≠ 22050 then
    match resample y sr 22050 with
    | .error e => .error e
    | .ok y2 => .ok (y2, 22050)
  else .ok (y, sr)

/-- The band-pass masking of `bpm_detection.py` lines 64–68: zero every STFT
row whose centre frequency lies outside 150–5000 Hz.  Rows of `S` are
frequency bins. -/
def bandpassZero (freqs : List ℚ) (S : List (List ℚ)) : List (List ℚ) :=
  (freqs.zip S).map (fun p =>
    if 150 ≤ p.1 ∧ p.1 ≤ 5000 then p.2 else p.2.map (fun _ => (0 : ℚ)))

/-- `np.argmax` selection over paired (bpm, strength) data: return the bpm
paired with the *first* maximal strength, or raise (as numpy's `argmax` does)
on an empty array. -/
def argmaxPair : List (ℚ × ℚ) → Except String ℚ
  | [] => .error "attempt to get argmax of an empty sequence"
  | p :: ps => .ok (ps.foldl (fun b q => if b.2 < q.2 then q else b) p).1

/-- The plausibility filtering of `bpm_detection.py` lines 93–96 and 111–114:
keep a (lag-bpm, strength) pair only when the bpm is finite and inside
`[40, 200]` (`inf` fails `bpms <= 200`). -/
def maskedPairs (lags : List (Option ℚ)) (vals : List ℚ) : List (ℚ × ℚ) :=
  (lags.zip vals).filterMap (fun p =>
    match p.1 with
    | none => none
    | some q => if 40 ≤ q ∧ q ≤ 200 then some (q, p.2) else none)

/-- Mask then arg-max peak pick (`bpms[np.argmax(autocorr)]` after filtering
both arrays with the same validity mask). -/
def peakPick (lags : List (Option ℚ)) (vals : List ℚ) : Except String ℚ :=
  argmaxPair (maskedPairs lags vals)

/-- Lag-to-BPM conversion of `bpm_detection.py` lines 90–91:
`times = frames_to_time(arange(n), sr, hop_length=512)` gives
`times[i] = i*512/sr`, and `bpms = 60/times`, whose entry at lag 0 is the
non-finite `inf` (modelled `none`). -/
def lagBpms (n : ℕ) (sr : ℕ) : List (Option ℚ) :=
  (List.range n).map (fun (i : ℕ) =>
    if i = 0 then none else some (60 * (sr : ℚ) / (512 * (i : ℚ))))

/-- Primary candidate of `bpm_detection.py` lines 84–99: convert
autocorrelation lags to BPM, mask to `[40, 200]`, pick the arg-max peak. -/
def primaryCandidate (autocorr : List ℚ) (sr : ℕ) : Except String ℚ :=
  peakPick (lagBpms autocorr.length sr) autocorr

/-- Oracle interface for the librosa calls made by `bpm_detection.py`.
Fields follow the call sites in order; fallible calls return `Except`. -/
structure BpmLib where
  trim : List ℚ → Except String (List ℚ)
  resample : List ℚ → ℕ → ℕ → Except String (List ℚ)
  hpss : List ℚ → Except String (List ℚ × List ℚ)
  stft : List ℚ → Except String (List (List ℚ))
  fftFrequencies : ℕ → List ℚ
  istft : List (List ℚ) → Except String (List ℚ)
  onsetStrength : List ℚ → ℕ → ℕ → Except String (List ℚ)
  autocorrelate : List ℚ → ℕ → Except String (List ℚ)
  tempogram : List ℚ → ℕ → ℕ → Except String (List (List ℚ))
  tempoFrequencies : ℕ → ℕ → ℕ → List (Option ℚ)
  beatTrack : List ℚ → ℕ → ℕ → ℚ → ℚ → Except String Value

/-- The candidate-generation body of `detect_bpm` (`bpm_detection.py`
lines 32–128), producing the list `bpm_estimates = [bpm_candidate,
bpm_tempogram, tempo_beat]`.  Any library exception or the argmax fault
surfaces as `.error`. -/
def detectCandidates (O : BpmLib) (y : List ℚ) (sr : ℕ) :
    Except String (List ℚ) :=
  match O.trim y with
  | .error e => .error e
  | .ok y =>
  match resampleStep O.resample y sr with
  | .error e => .error e
  | .ok (y, sr) =>
  let y := middleSection y
  match O.hpss y with
  | .error e => .error e
  | .ok (_yHarmonic, yPercussive) =>
  match O.stft yPercussive with
  | .error e => .error e
  | .ok S =>
  let freqs := O.fftFrequencies sr
  let Sf := bandpassZero freqs S
  match O.istft Sf with
  | .error e => .error e
  | .ok ypFiltered =>
  match O.onsetStrength ypFiltered sr 512 with
  | .error e => .error e
  | .ok onsetEnv =>
  match O.autocorrelate onsetEnv (sr / 512) with
  | .error e => .error e
  | .ok autocorr =>
  match primaryCandidate autocorr sr with
  | .error e => .error e
  | .ok bpmCandidate =>
  match O.tempogram onsetEnv sr 512 with
  | .error e => .error e
  | .ok tg =>
  let acGlobal := tg.map listMean
  let tempoLags := O.tempoFrequencies acGlobal.length sr 512
  match peakPick tempoLags acGlobal with
  | .error e => .error e
  | .ok bpmTempogram =>
  match O.beatTrack ypFiltered sr 512 120 100 with
  | .error e => .error e
  | .ok tempoBeatRaw =>
  let tempoBeat := bpmToScalar tempoBeatRaw
  .ok [bpmCandidate, bpmTempogram, tempoBeat]

/-- `bpm_final = round(float(np.median(bpm_estimates)), 2)`
(`bpm_detection.py` lines 127–130). -/
def detectEstimate (O : BpmLib) (y : List ℚ) (sr : ℕ) : Except String ℚ :=
  match detectCandidates O y sr with
  | .error e => .error e
  | .ok cs => .ok (round2 (npMedian cs))

/-- Observable outcome of a pipeline: a numeric BPM or the failure sentinel
string "BPM detection failed or is unreliable". -/
inductive BPMResult where
  | bpm (q : ℚ)
  | sentinel
deriving DecidableEq

/-- `detect_bpm` (`bpm_detection.py` lines 25–143): validation gate at
lines 133–136 and the top-level `except` at lines 141–143, both of which
produce the sentinel. -/
def detect_bpm (O : BpmLib) (y : List ℚ) (sr : ℕ) : BPMResult :=
  match detectEstimate O y sr with
  | .error _ => .sentinel
  | .ok q => if 40 ≤ q ∧ q ≤ 200 then .bpm q else .sentinel

/-- `detect_bpm` again, with the process-wide observable state — the stdout
log written by its `print` statements — threaded explicitly.  The result pair
is (return value, log after the call).  Each step appends its message in
source order; an exception appends the line printed by the handler at
`bpm_detection.py` line 142.  The final `if` both chooses the return value
and the closing log line, as lines 133–138 do. -/
def detectW (O : BpmLib) (y : List ℚ) (sr : ℕ) (log : List String) :
    BPMResult × List String :=
  let log := log ++ ["Starting BPM detection."]
  match O.trim y with
  | .error e => (.sentinel, log ++ ["Error in BPM detection: " ++ e])
  | .ok y =>
  let log := log ++ ["Silence trimmed."]
  let resampleLog : List String :=
    if sr ≠ 22050 then ["Resampled audio to 22050 Hz."] else []
  match resampleStep O.resample y sr with
  | .error e => (.sentinel, log ++ ["Error in BPM detection: " ++ e])
  | .ok (y, sr) =>
  let log := log ++ resampleLog
  let y := middleSection y
  let log := log ++ ["Middle section of audio selected."]
  match O.hpss y with
  | .error e => (.sentinel, log ++ ["Error in BPM detection: " ++ e])
  | .ok (_yHarmonic, yPercussive) =>
  let log := log ++ ["Percussive component isolated."]
  match O.stft yPercussive with
  | .error e => (.sentinel, log ++ ["Error in BPM detection: " ++ e])
  | .ok S =>
  let freqs := O.fftFrequencies sr
  let Sf := bandpassZero freqs S
  match O.istft Sf with
  | .error e => (.sentinel, log ++ ["Error in BPM detection: " ++ e])
  | .ok ypFiltered =>
  let log := log ++ ["Band-pass filter applied."]
  match O.onsetStrength ypFiltered sr 512 with
  | .error e => (.sentinel, log ++ ["Error in BPM detection: " ++ e])
  | .ok onsetEnv =>
  let log := log ++ ["Onset envelope computed."]
  match O.autocorrelate onsetEnv (sr / 512) with
  | .error e => (.sentinel, log ++ ["Error in BPM detection: " ++ e])
  | .ok autocorr =>
  let log := log ++ ["Autocorrelation computed."]
  match primaryCandidate autocorr sr with
  | .error e => (.sentinel, log ++ ["Error in BPM detection: " ++ e])
  | .ok bpmCandidate =>
  let log := log ++ ["Primary BPM candidate: " ++ toString bpmCandidate]
  match O.tempogram onsetEnv sr 512 with
  | .error e => (.sentinel, log ++ ["Error in BPM detection: " ++ e])
  | .ok tg =>
  let acGlobal := tg.map listMean
  let tempoLags := O.tempoFrequencies acGlobal.length sr 512
  match peakPick tempoLags acGlobal with
  | .error e => (.sentinel, log ++ ["Error in BPM detection: " ++ e])
  | .ok bpmTempogram =>
  let log := log ++ ["Secondary BPM candidate from tempogram: " ++ toString bpmTempogram]
  match O.beatTrack ypFiltered sr 512 120 100 with
  | .error e => (.sentinel, log ++ ["Error in BPM detection: " ++ e])
  | .ok tempoBeatRaw =>
  let tempoBeat := bpmToScalar tempoBeatRaw
  let log := log ++ ["Third BPM candidate from beat_track: " ++ toString tempoBeat]
  let bpmFinal := round2 (npMedian [bpmCandidate, bpmTempogram, tempoBeat])
  let log := log ++ ["Final BPM estimate: " ++ toString bpmFinal]
  let result : BPMResult :=
    if 40 ≤ bpmFinal ∧ bpmFinal ≤ 200 then .bpm bpmFinal else .sentinel
  let endLog : List String :=
    if 40 ≤ bpmFinal ∧ bpmFinal ≤ 200 then
      ["BPM detection completed successfully."]
    else ["BPM validation failed."]
  (result, log ++ endLog)

/-- Oracle interface for the librosa / pydub calls made by `server.py`.
`Seg` is the abstract `AudioSegment` type of pydub; its operations are pure
oracles (the source performs no error handling around them that the claims
touch).  Fallible librosa calls return `Except`. -/
structure ServerLib where
  Seg : Type
  sineSegment : ℚ → ℚ → Seg
  silent : ℚ → Seg
  concat : Seg → Seg → Seg
  repeatSeg : Seg → ℤ → Seg
  fromSamples : List ℚ → ℕ → Seg
  overlay : Seg → Seg → Seg
  getSamples : Seg → List ℤ
  getDuration : List ℚ → ℕ → Except String ℚ
  trim : List ℚ → Except String (List ℚ)
  hpss : List ℚ → Except String (List ℚ × List ℚ)
  onsetStrength : List ℚ → ℕ → Option ℕ → Except String (List ℚ)
  beatTrack : List ℚ → ℕ → List ℚ → ℚ → ℚ → Except String Value
  rhythmTempo : List ℚ → ℕ → Option ℕ → Except String (List ℚ)
  detectKey : List ℚ → ℕ → Except String (String × ℚ)

/-- `add_metronome` (`server.py` lines 142–165): build a 1 kHz click of 50 ms
followed by `60000/bpm - 50` ms of silence, tile it `int(duration /
(silence_duration/1000))` times, overlay it on the uploaded audio, and return
the combined samples scaled by `1/32768`. -/
def addMetronome (L : ServerLib) (y : List ℚ) (sr : ℕ) (bpm : ℚ)
    (duration : ℚ) : List ℚ :=
  let click := L.sineSegment 1000 50
  let silenceDuration := 60000 / bpm
  let metronome := L.concat click (L.silent (silenceDuration - 50))
  let metronomeTrack := L.repeatSeg metronome (pyInt (duration / (silenceDuration / 1000)))
  let audioSegment := L.fromSamples y sr
  let combined := L.overlay audioSegment metronomeTrack
  (L.getSamples combined).map (fun (s : ℤ) => (s : ℚ) / 32768)

/-- Preprocessing portion of `upload_file` (`server.py` lines 63–83):
metronome overlay at the hard-coded 120 BPM, silence trim, central
windowing, harmonic/percussive separation. -/
def uploadPre (L : ServerLib) (y : List ℚ) (sr : ℕ) :
    Except String (List ℚ × List ℚ) :=
  match L.getDuration y sr with
  | .error e => .error e
  | .ok duration =>
  let y := addMetronome L y sr 120 duration
  match L.trim y with
  | .error e => .error e
  | .ok y =>
  let y := middleSection y
  L.hpss y

/-- The four candidate generators of `upload_file` (`server.py` lines 84–112),
applied to the percussive component: beat-track with fast prior (90/100),
onset-tempo median at default hop, beat-track with slow prior (60/80), and
onset-tempo median at hop 256. -/
def uploadTempos (L : ServerLib) (yPercussive : List ℚ) (sr : ℕ) :
    Except String (ℚ × ℚ × ℚ × ℚ) :=
  match L.onsetStrength yPercussive sr none with
  | .error e => .error e
  | .ok onsetEnv =>
  match L.beatTrack yPercussive sr onsetEnv 90 100 with
  | .error e => .error e
  | .ok tempoBeatRaw =>
  match serverToScalar tempoBeatRaw with
  | .error e => .error e
  | .ok tempoBeat =>
  match L.rhythmTempo onsetEnv sr none with
  | .error e => .error e
  | .ok tempos =>
  match serverToScalar (.scalar (npMedian tempos)) with
  | .error e => .error e
  | .ok tempoOnset =>
  match L.beatTrack yPercussive sr onsetEnv 60 80 with
  | .error e => .error e
  | .ok tempoBeatAltRaw =>
  match serverToScalar tempoBeatAltRaw with
  | .error e => .error e
  | .ok tempoBeatAlt =>
  match L.onsetStrength yPercussive sr (some 256) with
  | .error e => .error e
  | .ok onsetEnvFine =>
  match L.rhythmTempo onsetEnvFine sr (some 256) with
  | .error e => .error e
  | .ok temposFine =>
  match serverToScalar (.scalar (npMedian temposFine)) with
  | .error e => .error e
  | .ok tempoFine =>
  .ok (tempoBeat, tempoOnset, tempoBeatAlt, tempoFine)

/-- Aggregation of `upload_file` (`server.py` lines 114–123):
`round(np.median([np.median(estimates), weighted_average]), 2)`. -/
def uploadAggregate (tempoBeat tempoOnset tempoBeatAlt tempoFine : ℚ) : ℚ :=
  round2 (npMedian [npMedian [tempoBeat, tempoOnset, tempoBeatAlt, tempoFine],
    0.4 * tempoBeat + 0.3 * tempoOnset + 0.2 * tempoBeatAlt + 0.1 * tempoFine])

/-- The aggregation formula exactly as the spec words it (§4.3, 4-candidate
variant): `M1` the median of the four candidates, `M2` the fixed-weight
average, final `round(median(M1, M2), 2)`. -/
def specAggregate4 (beatFast onsetCoarse beatSlow onsetFine : ℚ) : ℚ :=
  let M1 := npMedian [beatFast, onsetCoarse, beatSlow, onsetFine]
  let M2 := 0.4 * beatFast + 0.3 * onsetCoarse + 0.2 * beatSlow + 0.1 * onsetFine
  round2 (npMedian [M1, M2])

/-- The analysable body of `upload_file` (`server.py` lines 63–131), from the
decoded waveform to the `(bpm, key)` pair: preprocessing, the four candidate
generators, aggregation, range gate (lines 125–127, producing the sentinel),
and key detection.  Exceptions surface as `.error`. -/
def uploadBody (L : ServerLib) (y : List ℚ) (sr : ℕ) :
    Except String (BPMResult × String) :=
  match uploadPre L y sr with
  | .error e => .error e
  | .ok (yHarmonic, yPercussive) =>
  match uploadTempos L yPercussive sr with
  | .error e => .error e
  | .ok (tempoBeat, tempoOnset, tempoBeatAlt, tempoFine) =>
  let bpmFinal := uploadAggregate tempoBeat tempoOnset tempoBeatAlt tempoFine
  let result : BPMResult :=
    if 40 ≤ bpmFinal ∧ bpmFinal ≤ 200 then .bpm bpmFinal else .sentinel
  match L.detectKey yHarmonic sr with
  | .error e => .error e
  | .ok (key, _confidence) =>
  .ok (result, key)

/-- HTTP-level outcome of `upload_file`: the 200 JSON response with `bpm` and
`key` fields, or the 500 error response of `server.py` lines 133–137 carrying
the exception text. -/
inductive UploadResponse where
  | success (bpm : BPMResult) (key : String)
  | serverError (msg : String)
deriving DecidableEq

/-- `upload_file`'s `try`/`except` boundary (`server.py` lines 50, 133–140):
a successful analysis becomes the 200 response; any exception becomes the
500 error response. -/
def uploadHandler (L : ServerLib) (y : List ℚ) (sr : ℕ) : UploadResponse :=
  match uploadBody L y sr with
  | .ok (r, key) => .success r key
  | .error e => .serverError e

/-- The tempo analysis stage as the spec-side reading of `upload_file`
describes it: applied to an already-mixed waveform (trim, window, separate,
generate four candidates, aggregate, gate, detect key). -/
def mixedAnalysis (L : ServerLib) (mixed : List ℚ) (sr : ℕ) :
    Except String (BPMResult × String) :=
  match L.trim mixed with
  | .error e => .error e
  | .ok y =>
  let y := middleSection y
  match L.hpss y with
  | .error e => .error e
  | .ok (yHarmonic, yPercussive) =>
  match uploadTempos L yPercussive sr with
  | .error e => .error e
  | .ok (tempoBeat, tempoOnset, tempoBeatAlt, tempoFine) =>
  let bpmFinal := uploadAggregate tempoBeat tempoOnset tempoBeatAlt tempoFine
  let result : BPMResult :=
    if 40 ≤ bpmFinal ∧ bpmFinal ≤ 200 then .bpm bpmFinal else .sentinel
  match L.detectKey yHarmonic sr with
  | .error e => .error e
  | .ok (key, _confidence) =>
  .ok (result, key)

/-! ### Concrete stand-in libraries, used to evaluate the pipelines on closed
inputs when exercising the theorems below. -/

/-- A stand-in librosa under which the 3-candidate pipeline runs to completion
and returns 120 BPM. -/
def goodBpmLib : BpmLib where
  trim := fun y => .ok y
  resample := fun y _ _ => .ok y
  hpss := fun y => .ok (y, y)
  stft := fun _ => .ok [[1]]
  fftFrequencies := fun _ => [200]
  istft := fun _ => .ok [1]
  onsetStrength := fun _ _ _ => .ok (List.replicate 14 1)
  autocorrelate := fun env _ => .ok env
  tempogram := fun _ _ _ => .ok [[1], [1]]
  tempoFrequencies := fun _ _ _ => [none, some 120]
  beatTrack := fun _ _ _ _ _ => .ok (.scalar 120)

/-- `goodBpmLib` with a beat tracker reporting 300 BPM: the unfiltered third
candidate. -/
def highBeatBpmLib : BpmLib :=
  { goodBpmLib with beatTrack := fun _ _ _ _ _ => .ok (.scalar 300) }

/-- `goodBpmLib` with a single-frame onset envelope, so the autocorrelation
array has length 1 and every lag is masked out. -/
def shortBpmLib : BpmLib :=
  { goodBpmLib with onsetStrength := fun _ _ _ => .ok [1] }

/-- `goodBpmLib` whose trim step raises. -/
def throwBpmLib : BpmLib :=
  { goodBpmLib with trim := fun _ => .error "boom" }

/-- A stand-in librosa/pydub under which the 4-candidate upload pipeline runs
to completion and returns 120 BPM with key C. -/
def goodServerLib : ServerLib where
  Seg := Unit
  sineSegment := fun _ _ => ()
  silent := fun _ => ()
  concat := fun _ _ => ()
  repeatSeg := fun _ _ => ()
  fromSamples := fun _ _ => ()
  overlay := fun _ _ => ()
  getSamples := fun _ => [16384]
  getDuration := fun _ _ => .ok 1
  trim := fun y => .ok y
  hpss := fun y => .ok (y, y)
  onsetStrength := fun _ _ _ => .ok [1]
  beatTrack := fun _ _ _ _ _ => .ok (.ndarray [120])
  rhythmTempo := fun _ _ _ => .ok [120]
  detectKey := fun _ _ => .ok ("C", 1)

/-- `goodServerLib` with every generator reporting 250 BPM, so the aggregated
estimate falls outside the plausibility range. -/
def highServerLib : ServerLib :=
  { goodServerLib with
    beatTrack := fun _ _ _ _ _ => .ok (.ndarray [250])
    rhythmTempo := fun _ _ _ => .ok [250] }

/-- `goodServerLib` whose trim step raises. -/
def throwServerLib : ServerLib :=
  { goodServerLib with trim := fun _ => .error "boom" }

/-- A concrete resampler used to exercise the resampling-step theorem. -/
def doubleResample : List ℚ → ℕ → ℕ → Except String (List ℚ) :=
  fun y _ _ => .ok (y ++ y)

/-! ### Helper lemmas -/

/-- The value `detectW` returns is exactly `detect_bpm`'s, whatever log state
the process accumulated before the call: the pipeline reads none of it. -/
theorem detectW_fst (O : BpmLib) (y : List ℚ) (sr : ℕ) (log : List String) :
    (detectW O y sr log).1 = detect_bpm O y sr := by
  unfold detectW detect_bpm detectEstimate detectCandidates
  cases O.trim y with
  | error e => rfl
  | ok y1 =>
  dsimp only
  cases resampleStep O.resample y1 sr with
  | error e => rfl
  | ok p1 =>
  obtain ⟨y2, sr2⟩ := p1
  dsimp only
  cases O.hpss (middleSection y2) with
  | error e => rfl
  | ok p2 =>
  obtain ⟨yh, yp⟩ := p2
  dsimp only
  cases O.stft yp with
  | error e => rfl
  | ok S =>
  dsimp only
  cases O.istft (bandpassZero (O.fftFrequencies sr2) S) with
  | error e => rfl
  | ok ypf =>
  dsimp only
  cases O.onsetStrength ypf sr2 512 with
  | error e => rfl
  | ok env =>
  dsimp only
  cases O.autocorrelate env (sr2 / 512) with
  | error e => rfl
  | ok autocorr =>
  dsimp only
  cases primaryCandidate autocorr sr2 with
  | error e => rfl
  | ok c1 =>
  dsimp only
  cases O.tempogram env sr2 512 with
  | error e => rfl
  | ok tg =>
  dsimp only
  cases peakPick (O.tempoFrequencies (tg.map listMean).length sr2 512) (tg.map listMean) with
  | error e => rfl
  | ok c2 =>
  dsimp only
  cases O.beatTrack ypf sr2 512 120 100 with
  | error e => rfl
  | ok tempoBeatRaw => rfl


/-- The running best kept by the arg-max fold is one of the scanned pairs. -/
theorem foldSel_mem (l : List (ℚ × ℚ)) (p : ℚ × ℚ) :
    l.foldl (fun b q => if b.2 < q.2 then q else b) p ∈ p :: l := by
  induction l generalizing p with
  | nil => simp
  | cons x xs ih =>
    simp only [List.foldl_cons]
    by_cases hc : p.2 < x.2
    · simp only [if_pos hc]
      exact List.mem_cons_of_mem p (ih x)
    · simp only [if_neg hc]
      rcases List.mem_cons.mp (ih p) with h | h
      · simp [h]
      · exact List.mem_cons_of_mem p (List.mem_cons_of_mem x h)

/-- A successful arg-max selection returns the first component of some pair of
the array it scanned. -/
theorem argmaxPair_mem {l : List (ℚ × ℚ)} {q : ℚ}
    (h : argmaxPair l = .ok q) : ∃ p ∈ l, p.1 = q := by
  cases l with
  | nil => exact Except.noConfusion h
  | cons p ps =>
    simp only [argmaxPair, Except.ok.injEq] at h
    exact ⟨ps.foldl (fun b q => if b.2 < q.2 then q else b) p, foldSel_mem ps p, h⟩

/-- Every pair surviving the plausibility mask carries a BPM in `[40, 200]`. -/
theorem maskedPairs_range {lags : List (Option ℚ)} {vals : List ℚ}
    {p : ℚ × ℚ} (h : p ∈ maskedPairs lags vals) : 40 ≤ p.1 ∧ p.1 ≤ 200 := by
  simp only [maskedPairs, List.mem_filterMap] at h
  obtain ⟨a, _ha, hfa⟩ := h
  cases ha1 : a.1 with
  | none => rw [ha1] at hfa; exact Option.noConfusion hfa
  | some q =>
    rw [ha1] at hfa
    dsimp only at hfa
    by_cases hc : 40 ≤ q ∧ q ≤ 200
    · rw [if_pos hc] at hfa
      injection hfa with h2
      rw [← h2]
      exact hc
    · rw [if_neg hc] at hfa
      exact Option.noConfusion hfa

/-- A successful masked peak pick always lands in the plausibility range. -/
theorem peakPick_range {lags : List (Option ℚ)} {vals : List ℚ} {q : ℚ}
    (h : peakPick lags vals = .ok q) : 40 ≤ q ∧ q ≤ 200 := by
  obtain ⟨p, hp, hq⟩ := argmaxPair_mem h
  have := maskedPairs_range hp
  rwa [hq] at this

/-- The peak pick succeeds as soon as some pair survives the mask. -/
theorem peakPick_ok_of_ne_nil {lags : List (Option ℚ)} {vals : List ℚ}
    (h : maskedPairs lags vals ≠ []) : ∃ q, peakPick lags vals = .ok q := by
  unfold peakPick
  cases hm : maskedPairs lags vals with
  | nil => exact absurd hm h
  | cons p ps => exact ⟨_, rfl⟩

theorem lagBpms_length (n sr : ℕ) : (lagBpms n sr).length = n := by
  unfold lagBpms
  rw [List.length_map, List.length_range]

/-- At the canonical 22050 Hz rate, lag 13 converts to
`60*22050/(512*13) ≈ 198.77` BPM, which passes the plausibility mask; hence
any autocorrelation array with at least 14 entries leaves the masked array
nonempty. -/
theorem maskedPairs_ne_nil_of_14 {ac : List ℚ} (h : 14 ≤ ac.length) :
    maskedPairs (lagBpms ac.length 22050) ac ≠ [] := by
  have hz : 13 < ((lagBpms ac.length 22050).zip ac).length := by
    rw [List.length_zip, lagBpms_length]
    omega
  have hac : 13 < ac.length := by omega
  have hmem : (some (60 * (22050 : ℚ) / (512 * (13 : ℚ))), ac.get ⟨13, hac⟩) ∈
      (lagBpms ac.length 22050).zip ac := by
    rw [List.mem_iff_getElem]
    refine ⟨13, hz, ?_⟩
    rw [List.getElem_zip, Prod.mk.injEq]
    constructor
    · unfold lagBpms
      rw [List.getElem_map, List.getElem_range]
      norm_num
    · exact (List.get_eq_getElem ac ⟨13, hac⟩).symm
  have himg : (60 * (22050 : ℚ) / (512 * (13 : ℚ)), ac.get ⟨13, hac⟩) ∈
      maskedPairs (lagBpms ac.length 22050) ac := by
    unfold maskedPairs
    refine List.mem_filterMap.mpr ⟨_, hmem, ?_⟩
    have hr : (40 : ℚ) ≤ 60 * (22050 : ℚ) / (512 * (13 : ℚ)) ∧
        60 * (22050 : ℚ) / (512 * (13 : ℚ)) ≤ 200 := by norm_num
    simp [hr]
  exact List.ne_nil_of_mem himg

/-! ### Evaluation lemmas on the concrete stand-in libraries.
Rational arithmetic does not reduce in the kernel, so closed runs of the
pipelines are evaluated by simp-normalisation here and reused by the
witnesses and counterexamples below. -/

theorem round2_low (q : ℚ) (z : ℤ) (hz : ⌊100 * q⌋ = z)
    (h : 100 * q - (z : ℚ) < 1/2) : round2 q = (z : ℚ) / 100 := by
  unfold round2 roundHalfEven
  rw [Int.fract, hz, if_pos h]

theorem round2_high (q : ℚ) (z : ℤ) (hz : ⌊100 * q⌋ = z)
    (h : 1/2 < 100 * q - (z : ℚ)) : round2 q = ((z : ℚ) + 1) / 100 := by
  unfold round2 roundHalfEven
  rw [Int.fract, hz, if_neg (by linarith), if_pos h]
  push_cast
  ring

theorem rangeFourteen : List.range 14 = [0,1,2,3,4,5,6,7,8,9,10,11,12,13] := by decide

theorem eval_maskedPairs14 :
    maskedPairs (lagBpms 14 22050) (List.replicate 14 1) = [(165375/832, 1)] := by
  norm_num [maskedPairs, lagBpms, rangeFourteen, List.replicate, List.zip_cons_cons,
    List.filterMap_cons]

theorem eval_primary14 :
    primaryCandidate (List.replicate 14 1) 22050 = .ok (165375/832) := by
  unfold primaryCandidate peakPick
  rw [show (List.replicate 14 (1:ℚ)).length = 14 from by simp, eval_maskedPairs14]
  rfl

theorem eval_primary1 :
    primaryCandidate [(1:ℚ)] 22050 =
      .error "attempt to get argmax of an empty sequence" := by
  norm_num [primaryCandidate, peakPick, maskedPairs, lagBpms, argmaxPair,
    List.range_succ, List.zip_cons_cons, List.filterMap_cons]

theorem eval_candidates_good :
    detectCandidates goodBpmLib [1] 22050 = .ok [165375/832, 120, 120] := by
  norm_num [detectCandidates, goodBpmLib, resampleStep, middleSection,
    pySlice, bandpassZero, eval_primary14, peakPick, maskedPairs, argmaxPair,
    listMean, bpmToScalar, List.zip_cons_cons, List.filterMap_cons]

theorem eval_candidates_high :
    detectCandidates highBeatBpmLib [1] 22050 = .ok [165375/832, 120, 300] := by
  norm_num [detectCandidates, highBeatBpmLib, goodBpmLib, resampleStep, middleSection,
    pySlice, bandpassZero, eval_primary14, peakPick, maskedPairs, argmaxPair,
    listMean, bpmToScalar, List.zip_cons_cons, List.filterMap_cons]

theorem eval_median3 : npMedian [(165375:ℚ)/832, 120, 120] = 120 := by
  norm_num [npMedian, List.insertionSort, List.orderedInsert]

theorem eval_median3_high : npMedian [(165375:ℚ)/832, 120, 300] = 165375/832 := by
  norm_num [npMedian, List.insertionSort, List.orderedInsert]

theorem eval_round2_120 : round2 120 = 120 := by
  rw [round2_low 120 12000 (by rw [Int.floor_eq_iff]; norm_num) (by norm_num)]
  norm_num

theorem eval_round2_250 : round2 250 = 250 := by
  rw [round2_low 250 25000 (by rw [Int.floor_eq_iff]; norm_num) (by norm_num)]
  norm_num

theorem eval_round2_peak : round2 (165375/832) = 19877/100 := by
  rw [round2_high (165375/832) 19876 (by rw [Int.floor_eq_iff]; norm_num) (by norm_num)]
  norm_num

theorem eval_estimate_good : detectEstimate goodBpmLib [1] 22050 = .ok 120 := by
  unfold detectEstimate
  rw [eval_candidates_good]
  dsimp only
  rw [eval_median3, eval_round2_120]

theorem eval_estimate_high :
    detectEstimate highBeatBpmLib [1] 22050 = .ok (19877/100) := by
  unfold detectEstimate
  rw [eval_candidates_high]
  dsimp only
  rw [eval_median3_high, eval_round2_peak]

theorem eval_detect_good : detect_bpm goodBpmLib [1] 22050 = .bpm 120 := by
  unfold detect_bpm
  rw [eval_estimate_good]
  norm_num

theorem eval_detect_short : detect_bpm shortBpmLib [1] 22050 = .sentinel := by
  unfold detect_bpm detectEstimate detectCandidates
  norm_num [shortBpmLib, goodBpmLib, resampleStep, middleSection, pySlice,
    bandpassZero, eval_primary1]

theorem eval_estimate_throw : detectEstimate throwBpmLib [1] 22050 = .error "boom" := by
  norm_num [detectEstimate, detectCandidates, throwBpmLib, goodBpmLib]

theorem eval_metronome_good : addMetronome goodServerLib [1] 22050 120 1 = [1/2] := by
  have h : addMetronome goodServerLib [1] 22050 120 1 = [((16384 : ℤ) : ℚ) / 32768] := rfl
  rw [h]
  norm_num

theorem eval_metronome_high : addMetronome highServerLib [1] 22050 120 1 = [1/2] := by
  have h : addMetronome highServerLib [1] 22050 120 1 = [((16384 : ℤ) : ℚ) / 32768] := rfl
  rw [h]
  norm_num

theorem eval_pre_good : uploadPre goodServerLib [1] 22050 = .ok ([], []) := by
  unfold uploadPre
  rw [show goodServerLib.getDuration [1] 22050 = Except.ok 1 from rfl]
  dsimp only
  rw [eval_metronome_good]
  rfl

theorem eval_pre_high : uploadPre highServerLib [1] 22050 = .ok ([], []) := by
  unfold uploadPre
  rw [show highServerLib.getDuration [1] 22050 = Except.ok 1 from rfl]
  dsimp only
  rw [eval_metronome_high]
  rfl

theorem eval_tempos_good :
    uploadTempos goodServerLib [] 22050 = .ok (120, 120, 120, 120) := by
  norm_num [uploadTempos, goodServerLib, serverToScalar, npMedian,
    List.insertionSort, List.orderedInsert]

theorem eval_tempos_high :
    uploadTempos highServerLib [] 22050 = .ok (250, 250, 250, 250) := by
  norm_num [uploadTempos, highServerLib, goodServerLib, serverToScalar, npMedian,
    List.insertionSort, List.orderedInsert]

theorem eval_agg_120 : uploadAggregate 120 120 120 120 = 120 := by
  have h1 : npMedian [(120:ℚ), 120, 120, 120] = 120 := by
    norm_num [npMedian, List.insertionSort, List.orderedInsert]
  have h3 : npMedian [(120:ℚ), 120] = 120 := by
    norm_num [npMedian, List.insertionSort, List.orderedInsert]
  norm_num [uploadAggregate, h1, h3, eval_round2_120]

theorem eval_agg_250 : uploadAggregate 250 250 250 250 = 250 := by
  have h1 : npMedian [(250:ℚ), 250, 250, 250] = 250 := by
    norm_num [npMedian, List.insertionSort, List.orderedInsert]
  have h3 : npMedian [(250:ℚ), 250] = 250 := by
    norm_num [npMedian, List.insertionSort, List.orderedInsert]
  norm_num [uploadAggregate, h1, h3, eval_round2_250]

theorem eval_body_good : uploadBody goodServerLib [1] 22050 = .ok (.bpm 120, "C") := by
  unfold uploadBody
  rw [eval_pre_good]
  dsimp only
  rw [eval_tempos_good]
  dsimp only
  rw [eval_agg_120]
  norm_num [goodServerLib]

theorem eval_body_high : uploadBody highServerLib [1] 22050 = .ok (.sentinel, "C") := by
  unfold uploadBody
  rw [eval_pre_high]
  dsimp only
  rw [eval_tempos_high]
  dsimp only
  rw [eval_agg_250]
  norm_num [highServerLib, goodServerLib]

theorem eval_body_throw : uploadBody throwServerLib [1] 22050 = .error "boom" := by
  norm_num [uploadBody, uploadPre, throwServerLib, goodServerLib, addMetronome]

/-! ### Claim theorems -/

/-- Claim C7: the central-windowing step retains exactly the samples with
indices from `len//4` up to (excluding) `3*len//4` of the trimmed waveform:
the result has length `3n/4 - n/4` and its `i`-th sample is the input's
`(n/4 + i)`-th sample. -/
theorem claim_C7 (y : List ℚ) (i : ℕ) :
    (middleSection y).length = 3 * y.length / 4 - y.length / 4 ∧
    (middleSection y)[i]? =
      (if i < 3 * y.length / 4 - y.length / 4 then y[y.length / 4 + i]? else none) := by
  constructor
  · simp only [middleSection, pySlice, List.length_drop, List.length_take]
    omega
  · simp only [middleSection, pySlice, List.getElem?_drop, List.getElem?_take]
    split
    · split
      · rfl
      · exfalso; omega
    · split
      · exfalso; omega
      · rfl

/-- Claim C8: at the canonical rate of 22050 Hz the resampling step is a
no-op that leaves the samples untouched, and a resample call happens exactly
when the incoming rate differs from 22050 Hz. -/
theorem claim_C8 :
    (∀ (resample : List ℚ → ℕ → ℕ → Except String (List ℚ)) (y : List ℚ),
      resampleStep resample y 22050 = .ok (y, 22050)) ∧
    (∀ (resample : List ℚ → ℕ → ℕ → Except String (List ℚ)) (y : List ℚ)
      (sr : ℕ), sr ≠ 22050 →
      resampleStep resample y sr =
        (match resample y sr 22050 with
         | .error e => .error e
         | .ok y2 => .ok (y2, 22050))) := by
  constructor
  · intro r y
    simp [resampleStep]
  · intro r y sr h
    simp [resampleStep, h]

theorem claim_C8_witness :
    resampleStep doubleResample [1, 2] 22050 = .ok ([1, 2], 22050) ∧
    resampleStep doubleResample [1, 2] 44100 = .ok ([1, 2, 1, 2], 22050) := by
  constructor
  · exact claim_C8.1 doubleResample [1, 2]
  · rw [claim_C8.2 doubleResample [1, 2] 44100 (by decide)]
    rfl

/-- Claim C2: the 4-candidate aggregation computes
`round(median(M1, M2), 2)` with `M1` the median of the four candidates and
`M2` the 0.4/0.3/0.2/0.1-weighted average, and on candidates
`[120, 122, 118, 121]` yields median 120.5, weighted average 120.3 and final
estimate 120.4. -/
theorem claim_C2 :
    (∀ tempoBeat tempoOnset tempoBeatAlt tempoFine : ℚ,
      uploadAggregate tempoBeat tempoOnset tempoBeatAlt tempoFine =
        specAggregate4 tempoBeat tempoOnset tempoBeatAlt tempoFine) ∧
    npMedian [(120 : ℚ), 122, 118, 121] = 120.5 ∧
    0.4 * (120 : ℚ) + 0.3 * 122 + 0.2 * 118 + 0.1 * 121 = 120.3 ∧
    uploadAggregate 120 122 118 121 = 120.4 := by
  refine ⟨fun a b c d => rfl, ?_, by norm_num, ?_⟩
  · norm_num [npMedian, List.insertionSort, List.orderedInsert]
  · have h1 : npMedian [(120:ℚ), 122, 118, 121] = 120.5 := by
      norm_num [npMedian, List.insertionSort, List.orderedInsert]
    have h3 : npMedian [(241 : ℚ)/2, 1203/10] = 602/5 := by
      norm_num [npMedian, List.insertionSort, List.orderedInsert]
    have h4 : round2 ((602 : ℚ)/5) = 602/5 := by
      rw [round2_low (602/5) 12040 (by rw [Int.floor_eq_iff]; norm_num) (by norm_num)]
      norm_num
    norm_num [uploadAggregate, h1, h3, h4]

/-- Claim C5 (amended): `bpm_detection.py`'s coercion implements the
first-element/0.0/cast rule for numpy arrays *and* plain lists, while
`server.py`'s implements it for numpy arrays and scalars only; the two agree
on numpy-array and scalar inputs.  (On a plain list the server version
raises, see the counterexample.) -/
theorem claim_C5 :
    bpmToScalar (.ndarray [128.3]) = 128.3 ∧
    bpmToScalar (.pylist [128.3]) = 128.3 ∧
    bpmToScalar (.ndarray []) = 0 ∧
    bpmToScalar (.pylist []) = 0 ∧
    bpmToScalar (.scalar 140) = 140 ∧
    serverToScalar (.ndarray [128.3]) = .ok 128.3 ∧
    serverToScalar (.ndarray []) = .ok 0 ∧
    serverToScalar (.scalar 140) = .ok 140 ∧
    (∀ xs : List ℚ, serverToScalar (.ndarray xs) = .ok (bpmToScalar (.ndarray xs))) ∧
    (∀ q : ℚ, serverToScalar (.scalar q) = .ok (bpmToScalar (.scalar q))) := by
  refine ⟨rfl, rfl, rfl, rfl, rfl, rfl, rfl, rfl, ?_, fun q => rfl⟩
  intro xs
  cases xs with
  | nil => rfl
  | cons x t => rfl

/-- Claim C5, counterexample: on the non-empty array-like value `[128.3]`
given as a plain Python list, the server-side coercion raises `TypeError`
instead of returning the first element, so the coercion rule is not applied
identically everywhere. -/
theorem claim_C5_cex :
    serverToScalar (.pylist [128.3]) =
      .error "TypeError: float argument must be a string or a real number, not list" ∧
    bpmToScalar (.pylist [128.3]) = 128.3 := ⟨rfl, rfl⟩

/-- Claim C6: with the stdout log threaded as explicit state, the detection
result is independent of the pre-existing log, and an immediately repeated
call on byte-identical inputs returns the same result: the pipeline is a
pure function of waveform, rate and the (deterministic) library oracles. -/
theorem claim_C6 (O : BpmLib) (y : List ℚ) (sr : ℕ) (s t : List String) :
    (detectW O y sr s).1 = (detectW O y sr t).1 ∧
    (detectW O y sr (detectW O y sr s).2).1 = (detectW O y sr s).1 := by
  constructor
  · rw [detectW_fst, detectW_fst]
  · rw [detectW_fst, detectW_fst]

/-- Claim C1: whenever either pipeline returns a numeric BPM it lies in
`[40, 200]`; in `detect_bpm` the final estimate passes through the validation
gate, and in `upload_file` an out-of-range aggregate is replaced by the
failure sentinel in the 200 response. -/
theorem claim_C1 :
    (∀ (O : BpmLib) (y : List ℚ) (sr : ℕ) (q : ℚ),
      detect_bpm O y sr = .bpm q → 40 ≤ q ∧ q ≤ 200) ∧
    (∀ (O : BpmLib) (y : List ℚ) (sr : ℕ) (q : ℚ),
      detectEstimate O y sr = .ok q →
      detect_bpm O y sr = if 40 ≤ q ∧ q ≤ 200 then .bpm q else .sentinel) ∧
    (∀ (L : ServerLib) (y : List ℚ) (sr : ℕ) (q : ℚ) (k : String),
      uploadBody L y sr = .ok (.bpm q, k) → 40 ≤ q ∧ q ≤ 200) ∧
    (∀ (L : ServerLib) (y : List ℚ) (sr : ℕ) (yh yp : List ℚ)
      (t1 t2 t3 t4 : ℚ) (k : String) (c : ℚ),
      uploadPre L y sr = .ok (yh, yp) →
      uploadTempos L yp sr = .ok (t1, t2, t3, t4) →
      ¬ (40 ≤ uploadAggregate t1 t2 t3 t4 ∧ uploadAggregate t1 t2 t3 t4 ≤ 200) →
      L.detectKey yh sr = .ok (k, c) →
      uploadBody L y sr = .ok (.sentinel, k)) := by
  refine ⟨?_, ?_, ?_, ?_⟩
  · intro O y sr q h
    unfold detect_bpm at h
    cases hE : detectEstimate O y sr with
    | error e => rw [hE] at h; exact BPMResult.noConfusion h
    | ok v =>
      rw [hE] at h
      dsimp only at h
      by_cases hc : 40 ≤ v ∧ v ≤ 200
      · rw [if_pos hc] at h
        injection h with h2
        rwa [← h2]
      · rw [if_neg hc] at h
        exact BPMResult.noConfusion h
  · intro O y sr q h
    unfold detect_bpm
    rw [h]
  · intro L y sr q k h
    unfold uploadBody at h
    cases hP : uploadPre L y sr with
    | error e => rw [hP] at h; exact Except.noConfusion h
    | ok p =>
      obtain ⟨yh, yp⟩ := p
      rw [hP] at h
      dsimp only at h
      cases hT : uploadTempos L yp sr with
      | error e => rw [hT] at h; exact Except.noConfusion h
      | ok t =>
        obtain ⟨t1, t2, t3, t4⟩ := t
        rw [hT] at h
        dsimp only at h
        cases hK : L.detectKey yh sr with
        | error e => rw [hK] at h; exact Except.noConfusion h
        | ok kc =>
          obtain ⟨k2, c2⟩ := kc
          rw [hK] at h
          dsimp only at h
          by_cases hc : 40 ≤ uploadAggregate t1 t2 t3 t4 ∧
              uploadAggregate t1 t2 t3 t4 ≤ 200
          · rw [if_pos hc] at h
            injection h with h2
            have h3 := congrArg Prod.fst h2
            dsimp at h3
            injection h3 with h4
            rwa [← h4]
          · rw [if_neg hc] at h
            injection h with h2
            have h3 := congrArg Prod.fst h2
            dsimp at h3
            exact BPMResult.noConfusion h3
  · intro L y sr yh yp t1 t2 t3 t4 k c h1 h2 h3 h4
    unfold uploadBody
    rw [h1]
    dsimp only
    rw [h2]
    dsimp only
    rw [h4, if_neg h3]

theorem claim_C1_witness :
    (40 ≤ (120 : ℚ) ∧ (120 : ℚ) ≤ 200) ∧
    detect_bpm goodBpmLib [1] 22050 = .bpm 120 ∧
    (40 ≤ (120 : ℚ) ∧ (120 : ℚ) ≤ 200) ∧
    uploadBody highServerLib [1] 22050 = .ok (.sentinel, "C") := by
  refine ⟨claim_C1.1 goodBpmLib [1] 22050 120 eval_detect_good, ?_,
    claim_C1.2.2.1 goodServerLib [1] 22050 120 "C" eval_body_good, ?_⟩
  · have h := claim_C1.2.1 goodBpmLib [1] 22050 120 eval_estimate_good
    rw [if_pos (by norm_num)] at h
    exact h
  · exact claim_C1.2.2.2 highServerLib [1] 22050 [] [] 250 250 250 250 "C" 1
      eval_pre_high eval_tempos_high (by rw [eval_agg_250]; norm_num) rfl

/-- Claim C3 (amended): in the 3-candidate pipeline the autocorrelation and
tempogram candidates are both filtered to `[40, 200]` before their arg-max
selection, and the final estimate is the plain 2-decimal-rounded median of
the three candidates — but the beat-track candidate enters the aggregation
unfiltered (see the counterexample), so not every aggregated candidate lies
in the plausibility range. -/
theorem claim_C3 :
    ∀ (O : BpmLib) (y : List ℚ) (sr : ℕ) (cs : List ℚ),
      detectCandidates O y sr = .ok cs →
      cs.length = 3 ∧
      (40 ≤ cs.getD 0 0 ∧ cs.getD 0 0 ≤ 200) ∧
      (40 ≤ cs.getD 1 0 ∧ cs.getD 1 0 ≤ 200) ∧
      detectEstimate O y sr = .ok (round2 (npMedian cs)) := by
  intro O y sr cs h
  have h0 : detectEstimate O y sr = .ok (round2 (npMedian cs)) := by
    unfold detectEstimate
    rw [h]
  unfold detectCandidates at h
  cases hT : O.trim y with
  | error e => rw [hT] at h; exact Except.noConfusion h
  | ok y1 =>
  rw [hT] at h
  dsimp only at h
  cases hR : resampleStep O.resample y1 sr with
  | error e => rw [hR] at h; exact Except.noConfusion h
  | ok p1 =>
  obtain ⟨y2, sr2⟩ := p1
  rw [hR] at h
  dsimp only at h
  cases hH : O.hpss (middleSection y2) with
  | error e => rw [hH] at h; exact Except.noConfusion h
  | ok p2 =>
  obtain ⟨yh2, yp2⟩ := p2
  rw [hH] at h
  dsimp only at h
  cases hS : O.stft yp2 with
  | error e => rw [hS] at h; exact Except.noConfusion h
  | ok S =>
  rw [hS] at h
  dsimp only at h
  cases hI : O.istft (bandpassZero (O.fftFrequencies sr2) S) with
  | error e => rw [hI] at h; exact Except.noConfusion h
  | ok ypf =>
  rw [hI] at h
  dsimp only at h
  cases hO : O.onsetStrength ypf sr2 512 with
  | error e => rw [hO] at h; exact Except.noConfusion h
  | ok env =>
  rw [hO] at h
  dsimp only at h
  cases hA : O.autocorrelate env (sr2 / 512) with
  | error e => rw [hA] at h; exact Except.noConfusion h
  | ok autocorr =>
  rw [hA] at h
  dsimp only at h
  cases hPC : primaryCandidate autocorr sr2 with
  | error e => rw [hPC] at h; exact Except.noConfusion h
  | ok c1 =>
  rw [hPC] at h
  dsimp only at h
  cases hTG : O.tempogram env sr2 512 with
  | error e => rw [hTG] at h; exact Except.noConfusion h
  | ok tg =>
  rw [hTG] at h
  dsimp only at h
  cases hPP : peakPick (O.tempoFrequencies (tg.map listMean).length sr2 512)
      (tg.map listMean) with
  | error e => rw [hPP] at h; exact Except.noConfusion h
  | ok c2 =>
  rw [hPP] at h
  dsimp only at h
  cases hB : O.beatTrack ypf sr2 512 120 100 with
  | error e => rw [hB] at h; exact Except.noConfusion h
  | ok raw =>
  rw [hB] at h
  dsimp only at h
  injection h with h2
  subst h2
  have r1 : 40 ≤ c1 ∧ c1 ≤ 200 := by
    unfold primaryCandidate at hPC
    exact peakPick_range hPC
  have r2 : 40 ≤ c2 ∧ c2 ≤ 200 := peakPick_range hPP
  exact ⟨rfl, r1, r2, h0⟩

/-- Claim C3, counterexample: with a beat tracker reporting 300 BPM the
candidate list entering aggregation is `[165375/832, 120, 300]` — its third
element is out of range yet unfiltered, and the final estimate is computed
from it. -/
theorem claim_C3_cex :
    detectCandidates highBeatBpmLib [1] 22050 = .ok [165375/832, 120, 300] ∧
    detectEstimate highBeatBpmLib [1] 22050 = .ok (19877/100) ∧
    ¬ (40 ≤ (300 : ℚ) ∧ (300 : ℚ) ≤ 200) :=
  ⟨eval_candidates_high, eval_estimate_high, by norm_num⟩

theorem claim_C3_witness :
    ([(165375 : ℚ)/832, 120, 120].length = 3) ∧
    (40 ≤ [(165375 : ℚ)/832, 120, 120].getD 0 0 ∧
      [(165375 : ℚ)/832, 120, 120].getD 0 0 ≤ 200) ∧
    (40 ≤ [(165375 : ℚ)/832, 120, 120].getD 1 0 ∧
      [(165375 : ℚ)/832, 120, 120].getD 1 0 ≤ 200) ∧
    detectEstimate goodBpmLib [1] 22050 =
      .ok (round2 (npMedian [165375/832, 120, 120])) :=
  claim_C3 goodBpmLib [1] 22050 [165375/832, 120, 120] eval_candidates_good

/-- Claim C4 (amended): an exception anywhere in `detect_bpm`'s body is
caught at its top level and converted to the failure sentinel; an exception
in `upload_file`'s inline pipeline is caught and converted to the 500 error
response carrying the exception text — never re-raised, but also not the
sentinel (see the counterexample). -/
theorem claim_C4 :
    (∀ (O : BpmLib) (y : List ℚ) (sr : ℕ) (e : String),
      detectEstimate O y sr = .error e → detect_bpm O y sr = .sentinel) ∧
    (∀ (L : ServerLib) (y : List ℚ) (sr : ℕ) (e : String),
      uploadBody L y sr = .error e → uploadHandler L y sr = .serverError e) := by
  constructor
  · intro O y sr e h
    unfold detect_bpm
    rw [h]
  · intro L y sr e h
    unfold uploadHandler
    rw [h]

/-- Claim C4, counterexample: the upload pipeline has two distinct failure
outcomes, not one — an exception becomes a 500 error response carrying the
exception text, while only the range gate produces the sentinel. -/
theorem claim_C4_cex :
    uploadHandler throwServerLib [1] 22050 = .serverError "boom" ∧
    uploadHandler highServerLib [1] 22050 = .success .sentinel "C" := by
  constructor
  · unfold uploadHandler
    rw [eval_body_throw]
  · unfold uploadHandler
    rw [eval_body_high]

theorem claim_C4_witness :
    detect_bpm throwBpmLib [1] 22050 = .sentinel ∧
    uploadHandler throwServerLib [1] 22050 = .serverError "boom" :=
  ⟨claim_C4.1 throwBpmLib [1] 22050 "boom" eval_estimate_throw,
   claim_C4.2 throwServerLib [1] 22050 "boom" eval_body_throw⟩

/-- Claim C9: before any tempo analysis, `upload_file` overlays the
synthetic metronome click track — a 1000 Hz, 50 ms click followed by 450 ms
of silence, tiled at the hard-coded 120 BPM — onto the decoded waveform, and
the whole analysis (trim, window, separation, the four candidate generators,
aggregation, gate, key detection) runs on the mixed signal. -/
theorem claim_C9 (L : ServerLib) (y : List ℚ) (sr : ℕ) :
    uploadBody L y sr =
      (match L.getDuration y sr with
       | .error e => .error e
       | .ok d => mixedAnalysis L (addMetronome L y sr 120 d) sr) ∧
    (∀ d : ℚ,
      addMetronome L y sr 120 d =
        (L.getSamples (L.overlay (L.fromSamples y sr)
          (L.repeatSeg (L.concat (L.sineSegment 1000 50) (L.silent 450))
            (pyInt (d / (1 / 2)))))).map (fun (s : ℤ) => (s : ℚ) / 32768)) := by
  constructor
  · unfold uploadBody uploadPre mixedAnalysis
    cases L.getDuration y sr with
    | error e => rfl
    | ok d =>
    dsimp only
    cases L.trim (addMetronome L y sr 120 d) with
    | error e => rfl
    | ok y1 => rfl
  · intro d
    unfold addMetronome
    norm_num

/-- Claim C10 (amended): every pair surviving the plausibility mask — in
particular the selected autocorrelation candidate — is finite and in
`[40, 200]`, and the lag-0 entry of the BPM conversion is the non-finite
`60/0` which the mask always rejects; the arg-max selection succeeds
whenever the autocorrelation array has at least 14 entries (at 22050 Hz lag
13 ≈ 198.77 BPM is the first in-range lag), but on shorter arrays every lag
is masked out and the selection raises (see the counterexample). -/
theorem claim_C10 :
    (∀ (lags : List (Option ℚ)) (vals : List ℚ) (p : ℚ × ℚ),
      p ∈ maskedPairs lags vals → 40 ≤ p.1 ∧ p.1 ≤ 200) ∧
    (∀ n sr : ℕ, 0 < n → (lagBpms n sr).headD (some 0) = none) ∧
    (∀ (autocorr : List ℚ) (q : ℚ),
      primaryCandidate autocorr 22050 = .ok q → 40 ≤ q ∧ q ≤ 200) ∧
    (∀ autocorr : List ℚ, 14 ≤ autocorr.length →
      ∃ q, primaryCandidate autocorr 22050 = .ok q) := by
  refine ⟨?_, ?_, ?_, ?_⟩
  · intro lags vals p hp
    exact maskedPairs_range hp
  · intro n sr hn
    cases n with
    | zero => omega
    | succ m =>
      unfold lagBpms
      rw [List.range_succ_eq_map]
      rfl
  · intro autocorr q h
    unfold primaryCandidate at h
    exact peakPick_range h
  · intro autocorr h
    unfold primaryCandidate
    exact peakPick_ok_of_ne_nil (maskedPairs_ne_nil_of_14 h)

/-- Claim C10, counterexample: on a length-1 autocorrelation (single-frame
onset envelope) the masked array is empty and the selection raises the numpy
argmax fault; the top-level handler then returns the sentinel. -/
theorem claim_C10_cex :
    primaryCandidate [1] 22050 = .error "attempt to get argmax of an empty sequence" ∧
    detect_bpm shortBpmLib [1] 22050 = .sentinel :=
  ⟨eval_primary1, eval_detect_short⟩

theorem claim_C10_witness :
    (40 ≤ ((165375 : ℚ)/832, (1 : ℚ)).1 ∧ ((165375 : ℚ)/832, (1 : ℚ)).1 ≤ 200) ∧
    (lagBpms 14 22050).headD (some 0) = none ∧
    (40 ≤ (165375 : ℚ)/832 ∧ (165375 : ℚ)/832 ≤ 200) ∧
    (∃ q, primaryCandidate (List.replicate 14 1) 22050 = .ok q) :=
  ⟨claim_C10.1 (lagBpms 14 22050) (List.replicate 14 1) (165375/832, 1)
      (by rw [eval_maskedPairs14]; exact List.mem_singleton.mpr rfl),
   claim_C10.2.1 14 22050 (by norm_num),
   claim_C10.2.2.1 (List.replicate 14 1) (165375/832) eval_primary14,
   claim_C10.2.2.2 (List.replicate 14 1) (by simp)⟩

end LoopLib
